import Mathlib

/-!
Verification of the Recorder synchronization / segment-lifecycle engine.

Shallow embedding of `src/libs/scrap/src/common/record.rs`.

Modelling conventions:
* Rust `u64` values are `Nat` together with the explicit saturating
  operations `satAdd64` / `satMul64` (Rust `saturating_add` /
  `saturating_mul`); `u64::MAX` is `U64_MAX`.  Rust `i64` is `Int`; the
  cast `v as u64` is `i64_to_u64` (two's-complement reduction mod `2^64`).
* Filesystem, muxer and wall-clock effects are passed in explicitly:
  `CheckEnv` carries the `chrono` timestamp string used by
  `set_filename`, the result of `create_dir_all`, and a `BackendEnv`
  with the results of the fallible backend-construction steps; per-frame
  muxer `add_frame` results arrive as explicit booleans.  `Instant`
  elapsed time is a `Nat` (seconds) argument of the drop models.
* The best-effort notification channel (`ctx.tx`) is modelled by
  returning the list of `RecordState` values passed to `send_state`.
* Calls into the backend's `write_audio` are returned as a trace
  (`List (List Nat × Nat)`, data bytes with the pts in microseconds), so
  that "no backend call is made" is expressible.
-/

namespace Record

/-- Source `u64::MAX`. -/
def U64_MAX : Nat := 2 ^ 64 - 1

/-- Rust `u64::saturating_add`. -/
def satAdd64 (a b : Nat) : Nat := min (a + b) U64_MAX

/-- Rust `u64::saturating_mul`. -/
def satMul64 (a b : Nat) : Nat := min (a * b) U64_MAX

/-- Rust release-mode (wrapping) u64 addition: `a + b` overflows mod `2^64`. -/
def wrapAdd64 (a b : Nat) : Nat := (a + b) % 2 ^ 64

/-- Rust release-mode (wrapping) u64 subtraction, for `b ≤ 2^64`. -/
def wrapSub64 (a b : Nat) : Nat := (a + 2 ^ 64 - b) % 2 ^ 64

/-- The Rust cast `v as u64` for `v : i64`: two's-complement reduction. -/
def i64_to_u64 (v : Int) : Nat := (v % 2 ^ 64).toNat

/-- Modelled from the spec: the codec families of `crate::CodecFormat`
(this enum lives in a sibling module of the repository that is not part
of the sources here; the spec lists the software-muxed family VP8/VP9/AV1
against the hardware-muxed H264/H265, plus an Unknown marker). -/
inductive CodecFormat where
  | VP8
  | VP9
  | AV1
  | H264
  | H265
  | Unknown
deriving DecidableEq, Repr

/-- Modelled from the spec: `format.to_string().to_lowercase()` used in
the filename convention `..._{format}.{ext}`. -/
def CodecFormat.lowerString : CodecFormat → String
  | .VP8 => "vp8"
  | .VP9 => "vp9"
  | .AV1 => "av1"
  | .H264 => "h264"
  | .H265 => "h265"
  | .Unknown => "unknown"

/-- Source `RecorderContext` (the notification sender `tx` is modelled by the
event lists returned by the operations). -/
structure RecorderContext where
  server : Bool
  id : String
  dir : String
  display_idx : Nat
  camera : Bool
deriving DecidableEq, Repr

/-- Source `RecorderContext2`. -/
structure RecorderContext2 where
  filename : String
  width : Nat
  height : Nat
  format : CodecFormat
deriving DecidableEq, Repr

/-- The file-name part built in `RecorderContext2::set_filename`:
direction, session id, `chrono` timestamp (`now`, which already carries
its surrounding underscores, from format `"_%Y%m%d%H%M%S%3f_"`), source
kind and index, codec format, extension. -/
def make_file (ctx : RecorderContext) (now : String) (format : CodecFormat) : String :=
  ((if ctx.server then "incoming" else "outgoing") ++ "_" ++ ctx.id)
    ++ now
    ++ ((if ctx.camera then "camera" else "display") ++ toString ctx.display_idx ++ "_"
        ++ format.lowerString
        ++ (if format = .VP9 ∨ format = .VP8 ∨ format = .AV1 then ".webm" else ".mp4"))

/-- The full path assigned by `set_filename`: directory joined with the
file name. -/
def mk_filename (ctx : RecorderContext) (now : String) (format : CodecFormat) : String :=
  (ctx.dir ++ "/") ++ make_file ctx now format

/-- Environment for the fallible steps of backend construction:
`mux_ok` is the result of `mux::Segment::new` / `Muxer::new`, `file_ok`
the result of opening the output file, `codec_private_ok` the result of
`set_codec_private` for AV1. -/
structure BackendEnv where
  file_ok : Bool
  mux_ok : Bool
  codec_private_ok : Bool
deriving DecidableEq, Repr

/-- Environment for `Recorder::check`: the timestamp used by
`set_filename`, the result of `create_dir_all`, and the backend
construction environment. -/
structure CheckEnv where
  now : String
  create_dir_ok : Bool
  backend : BackendEnv
deriving DecidableEq, Repr

/-- Source `RecorderContext2::set_filename`: creates the output directory
(fallible) and computes the filename from the session descriptor, the
current timestamp and the codec format. -/
def RecorderContext2.set_filename (c2 : RecorderContext2) (e : CheckEnv)
    (ctx : RecorderContext) : Except String RecorderContext2 :=
  if e.create_dir_ok then
    .ok { c2 with filename := mk_filename ctx e.now c2.format }
  else
    .error "create dir failed"

/-- Source `RecordState` notifications. -/
inductive RecordState where
  | NewFile (path : String)
  | NewFrame
  | WriteTail
  | RemoveFile
deriving DecidableEq, Repr

/-- Source `EncodedVideoFrame` (from the protobuf messages): payload bytes,
pts in milliseconds, keyframe flag. -/
structure EncodedVideoFrame where
  data : List Nat
  pts : Int
  key : Bool
deriving DecidableEq, Repr

/-- Source `video_frame::Union`: the batched-frame variants handled by
`write_frame` (other protobuf variants are `other`). -/
inductive VideoFrameUnion where
  | vp8s (frames : List EncodedVideoFrame)
  | vp9s (frames : List EncodedVideoFrame)
  | av1s (frames : List EncodedVideoFrame)
  | h264s (frames : List EncodedVideoFrame)
  | h265s (frames : List EncodedVideoFrame)
  | other
deriving DecidableEq, Repr

/-- Modelled from the spec: `CodecFormat::from(frame)` — determine the
codec format from the batch's union variant; unmappable variants give
`Unknown`. -/
def CodecFormat.fromFrame : VideoFrameUnion → CodecFormat
  | .vp8s _ => .VP8
  | .vp9s _ => .VP9
  | .av1s _ => .AV1
  | .h264s _ => .H264
  | .h265s _ => .H265
  | .other => .Unknown

/-- The frame list carried by a `video_frame::Union` variant. -/
def VideoFrameUnion.framesOf : VideoFrameUnion → List EncodedVideoFrame
  | .vp8s fs => fs
  | .vp9s fs => fs
  | .av1s fs => fs
  | .h264s fs => fs
  | .h265s fs => fs
  | .other => []

/-- Source `WebmRecorder` backend state (the `Instant` field `start` is
modelled by passing the elapsed seconds to the drop model; `webm_open`
is `self.webm.is_some()`; `at` is `self.at.is_some()`). -/
structure WebmRecorder where
  ctx2 : RecorderContext2
  key : Bool
  written : Bool
  audio_track : Bool
  last_video_ns : Nat
  last_audio_ns : Nat
  webm_open : Bool
deriving DecidableEq, Repr

/-- Source `HwRecorder` backend state (hwcodec feature enabled). -/
structure HwRecorder where
  ctx2 : RecorderContext2
  written : Bool
  key : Bool
deriving DecidableEq, Repr

/-- Source `WebmRecorder::new`: opening the file, creating the webm muxer and
(for AV1) setting the codec private data are the fallible steps. -/
def WebmRecorder.mk_new (e : BackendEnv) (ctx2 : RecorderContext2) :
    Except String WebmRecorder :=
  if ¬ e.file_ok then .error "file open failed"
  else if ¬ e.mux_ok then .error "Failed to create webm mux"
  else if ctx2.format = .AV1 ∧ ¬ e.codec_private_ok then
    .error "Failed to set codec private"
  else
    .ok { ctx2 := ctx2, key := false, written := false, audio_track := true,
          last_video_ns := 0, last_audio_ns := 0, webm_open := true }

/-- Source `HwRecorder::new`. -/
def HwRecorder.mk_new (e : BackendEnv) (ctx2 : RecorderContext2) :
    Except String HwRecorder :=
  if ¬ e.mux_ok then .error "Failed to create hardware muxer"
  else .ok { ctx2 := ctx2, written := false, key := false }

/-- The boxed `dyn RecorderApi`. -/
inductive Backend where
  | webm (w : WebmRecorder)
  | hw (h : HwRecorder)
deriving DecidableEq, Repr

/-- Backend dispatch in `Recorder::check`: VP8/VP9/AV1 go to the webm
backend, everything else to the hardware backend. -/
def new_backend (e : BackendEnv) (ctx2 : RecorderContext2) : Except String Backend :=
  match ctx2.format with
  | .VP8 | .VP9 | .AV1 => (WebmRecorder.mk_new e ctx2).map .webm
  | _ => (HwRecorder.mk_new e ctx2).map .hw

/-- Source `RecorderApi::write_video` for the two backends; `add_frame_ok` is
the muxer's `add_frame` / `write_video` result. -/
def Backend.write_video (b : Backend) (f : EncodedVideoFrame) (add_frame_ok : Bool) :
    Backend × Bool :=
  match b with
  | .webm w =>
    let w := if f.key then { w with key := true } else w
    if w.key then
      let pts_ns := satMul64 (i64_to_u64 f.pts) 1000000
      if add_frame_ok then
        (.webm { w with written := true, last_video_ns := pts_ns }, true)
      else (.webm w, false)
    else (.webm w, false)
  | .hw h =>
    let h := if f.key then { h with key := true } else h
    if h.key then
      if add_frame_ok then (.hw { h with written := true }, true)
      else (.hw h, false)
    else (.hw h, false)

/-- Source `RecorderApi::write_audio`: the webm backend writes when its segment
and audio track are present (pts converted µs → ns); the hardware
backend keeps the trait's default implementation returning `false`. -/
def Backend.write_audio (b : Backend) (_data : List Nat) (pts_us : Nat)
    (add_frame_ok : Bool) : Backend × Bool :=
  match b with
  | .webm w =>
    if w.webm_open ∧ w.audio_track then
      let pts_ns := satMul64 pts_us 1000
      if add_frame_ok then
        (.webm { w with written := true, last_audio_ns := pts_ns }, true)
      else (.webm w, false)
    else (.webm w, false)
  | .hw h => (.hw h, false)

/-- Source `MIN_SECS`. -/
def MIN_SECS : Nat := 1

/-- Source `impl Drop for WebmRecorder`: finalize, then delete the file (and
send `RemoveFile` instead of `WriteTail`) when nothing was written or
less than `MIN_SECS` wall-clock seconds elapsed since construction.
Returns (file removed?, notification sent). -/
def WebmRecorder.drop_run (w : WebmRecorder) (elapsed_secs : Nat) :
    Bool × RecordState :=
  if w.written = false ∨ elapsed_secs < MIN_SECS then (true, .RemoveFile)
  else (false, .WriteTail)

/-- Source `impl Drop for HwRecorder`: same removal condition. -/
def HwRecorder.drop_run (h : HwRecorder) (elapsed_secs : Nat) :
    Bool × RecordState :=
  if h.written = false ∨ elapsed_secs < MIN_SECS then (true, .RemoveFile)
  else (false, .WriteTail)

/-- The duration declared at webm finalize time: the larger of the last
video / audio timestamps. -/
def WebmRecorder.finalize_duration_ns (w : WebmRecorder) : Nat :=
  max w.last_video_ns w.last_audio_ns

/-- Source `Recorder` state. -/
structure Recorder where
  inner : Option Backend
  ctx : RecorderContext
  ctx2 : Option RecorderContext2
  pts : Option Int
  check_failed : Bool
  audio_pts_us : Nat
  audio_sample_rate : Nat
deriving DecidableEq, Repr

/-- Source `Recorder::new`. -/
def Recorder.mk_new (ctx : RecorderContext) : Recorder :=
  { inner := none, ctx := ctx, ctx2 := none, pts := none,
    check_failed := false, audio_pts_us := 0, audio_sample_rate := 48000 }

/-- Second half of `Recorder::check`: with `ctx2` settled, construct a
backend if none is open, resetting the pts baseline and the audio
timeline and emitting `NewFile`. -/
def Recorder.check_inner (r : Recorder) (e : CheckEnv) :
    Recorder × Except String Unit × List RecordState :=
  match r.ctx2 with
  | none => (r, .error "ctx2 is None", [])
  | some c2 =>
    match r.inner with
    | some _ => (r, .ok (), [])
    | none =>
      match new_backend e.backend c2 with
      | .error msg => (r, .error msg, [])
      | .ok b =>
        ({ r with inner := some b, pts := none, audio_pts_us := 0 },
         .ok (), [RecordState.NewFile c2.filename])

/-- Source `Recorder::check`: recompute the segment descriptor when none is
set or when width/height/format changed (dropping the open backend),
then open a backend if needed. -/
def Recorder.check (r : Recorder) (e : CheckEnv) (w h : Nat)
    (format : CodecFormat) : Recorder × Except String Unit × List RecordState :=
  match r.ctx2 with
  | some c2 =>
    if c2.width ≠ w ∨ c2.height ≠ h ∨ c2.format ≠ format then
      match RecorderContext2.set_filename
          { filename := "", width := w, height := h, format := format } e r.ctx with
      | .error msg => (r, .error msg, [])
      | .ok c2' => Recorder.check_inner { r with ctx2 := some c2', inner := none } e
    else Recorder.check_inner r e
  | none =>
    match RecorderContext2.set_filename
        { filename := "", width := w, height := h, format := format } e r.ctx with
    | .error msg => (r, .error msg, [])
    | .ok c2' => Recorder.check_inner { r with ctx2 := some c2', inner := none } e

/-- Source `Recorder::check_pts`: require a keyframe first in a fresh segment;
on a pts decrease drop the segment and rotate to a new one, latching
`check_failed` if the rotation fails. -/
def Recorder.check_pts (r : Recorder) (e : CheckEnv) (pts : Int) (key : Bool)
    (w h : Nat) (format : CodecFormat) :
    Recorder × Except String Unit × List RecordState :=
  if r.pts = none ∧ key = false then
    (r, .error "first frame is not key frame", [])
  else
    let old_pts := r.pts
    let r1 := { r with pts := some pts }
    if old_pts.getD 0 > pts then
      let r2 := { r1 with inner := none, ctx2 := none }
      match Recorder.check r2 e w h format with
      | (r3, res, evs) =>
        match res with
        | .error msg => ({ r3 with check_failed := true }, .error msg, evs)
        | .ok _ => ({ r3 with pts := some pts }, .ok (), evs)
    else (r1, .ok (), [])

/-- The per-frame loop body of `write_frame`: `check_pts` (aborting the
batch on error via `?`), then forward the frame to the backend; `oks`
supplies the muxer results, one per frame. -/
def Recorder.write_frames_loop (r : Recorder) (e : CheckEnv)
    (frames : List EncodedVideoFrame) (oks : List Bool) (w h : Nat)
    (format : CodecFormat) : Recorder × Except String Unit × List RecordState :=
  match frames with
  | [] => (r, .ok (), [])
  | f :: fs =>
    match Recorder.check_pts r e f.pts f.key w h format with
    | (r1, .error msg, evs) => (r1, .error msg, evs)
    | (r1, .ok _, evs) =>
      let r2 :=
        match r1.inner with
        | some b => { r1 with inner := some (b.write_video f (oks.headD false)).1 }
        | none => r1
      match Recorder.write_frames_loop r2 e fs (oks.tailD []) w h format with
      | (r3, res3, evs3) => (r3, res3, evs ++ evs3)

/-- Source `Recorder::write_frame`: fail fast when latched; reject unknown
codec formats; run the rotation check (latching on failure); then write
each frame of the batch, emitting `NewFrame` on full success. -/
def Recorder.write_frame (r : Recorder) (e : CheckEnv) (frame : VideoFrameUnion)
    (oks : List Bool) (w h : Nat) :
    Recorder × Except String Unit × List RecordState :=
  if r.check_failed then (r, .error "check failed", [])
  else
    let format := CodecFormat.fromFrame frame
    if format = .Unknown then (r, .error "unsupported frame type", [])
    else
      match Recorder.check r e w h format with
      | (r1, .error msg, evs) => ({ r1 with check_failed := true }, .error msg, evs)
      | (r1, .ok _, evs) =>
        match Recorder.write_frames_loop r1 e frame.framesOf oks w h format with
        | (r2, .error msg, evs2) => (r2, .error msg, evs ++ evs2)
        | (r2, .ok _, evs2) => (r2, .ok (), evs ++ evs2 ++ [RecordState.NewFrame])

/-- Source `opus_samples_per_frame` (ported from libopus): samples per frame
selected by the TOC configuration bits. -/
def opus_samples_per_frame (toc : Nat) (fs : Nat) : Nat :=
  if toc &&& 0x80 ≠ 0 then fs / 400
  else if toc &&& 0x60 = 0x60 then fs / 50
  else if toc &&& 0x60 ≠ 0 then fs / 100
  else fs / 200

/-- Source `opus_nb_frames`: frame count from the TOC's bottom two bits; code 3
reads the count from the next byte's low 6 bits, clamped to at least 1. -/
def opus_nb_frames (packet : List Nat) : Option Nat :=
  match packet with
  | [] => none
  | toc :: rest =>
    let c := toc &&& 0x03
    if c = 0 then some 1
    else if c ≠ 3 then some 2
    else
      match rest with
      | [] => none
      | b :: _ => some (max (b &&& 0x3F) 1)

/-- Source `opus_packet_duration_us`: duration in microseconds estimated from
the TOC and the frame count. -/
def opus_packet_duration_us (packet : List Nat) (sample_rate : Nat) : Option Nat :=
  match packet with
  | [] => none
  | toc :: _ =>
    if sample_rate = 0 then none
    else
      match opus_nb_frames packet with
      | none => none
      | some nbf =>
        let spf := opus_samples_per_frame toc sample_rate
        let samples := satMul64 spf nbf
        if samples = 0 then none
        else some (satMul64 samples 1000000 / sample_rate)

/-- The fast-forward step of `write_audio_opus`: when the audio cursor
lags the video timeline, jump by `ceil(behind / inc)` packet durations.
The numerator `behind + inc_us - 1` is computed in u64, whose release-
mode `+` and `-` wrap mod `2^64` (so an enormous `behind` can wrap the
numerator below `inc` and yield zero steps). -/
def audio_ff (cursor video_us inc : Nat) : Nat :=
  if cursor < video_us then
    let behind := video_us - cursor
    let steps := wrapSub64 (wrapAdd64 behind inc) 1 / inc
    satAdd64 cursor (satMul64 steps inc)
  else cursor

/-- Source `Recorder::write_audio_opus`: guards (latched failure, no video pts
baseline, no backend), first-use seeding of the audio cursor from the
video pts, fast-forward to the video timeline, the backend write, and
the advance-on-success / bounded-advance-on-failure policy.  Returns
the new state, the trace of backend `write_audio` calls, and the
notifications sent. -/
def Recorder.write_audio_opus (r : Recorder) (data : List Nat) (add_frame_ok : Bool) :
    Recorder × List (List Nat × Nat) × List RecordState :=
  if r.check_failed then (r, [], [])
  else
    match r.pts with
    | none => (r, [], [])
    | some v =>
      match r.inner with
      | none => (r, [], [])
      | some b =>
        let c0 := if r.audio_pts_us = 0 ∧ v > 0
          then satMul64 (i64_to_u64 v) 1000 else r.audio_pts_us
        let inc := (opus_packet_duration_us data r.audio_sample_rate).getD 20000
        let video_us := satMul64 (i64_to_u64 v) 1000
        let p := audio_ff c0 video_us inc
        match Backend.write_audio b data p add_frame_ok with
        | (b', wrote) =>
          let r1 := { r with inner := some b', audio_pts_us := p }
          if wrote then
            ({ r1 with audio_pts_us := satAdd64 p inc }, [(data, p)],
             [RecordState.NewFrame])
          else
            let next := satAdd64 p inc
            if next ≤ video_us then
              ({ r1 with audio_pts_us := next }, [(data, p)], [])
            else (r1, [(data, p)], [])

end Record


namespace Record

/-! ### Concrete instances used to exercise the model -/

def ctx0 : RecorderContext := ⟨false, "id", "rec", 0, false⟩

def env0 : CheckEnv := ⟨"_20260101000000001_", true, ⟨true, true, true⟩⟩

def c2prev : RecorderContext2 := ⟨mk_filename ctx0 "_20260101000000000_" .VP9, 2, 3, .VP9⟩

def webm0 : WebmRecorder := ⟨c2prev, true, true, true, 0, 0, true⟩

def hw0 : HwRecorder := ⟨c2prev, false, false⟩

def backend0 : Backend := .webm webm0

def rec0 : Recorder :=
  { inner := some backend0, ctx := ctx0, ctx2 := some c2prev, pts := some 10,
    check_failed := false, audio_pts_us := 5, audio_sample_rate := 48000 }

def recFail : Recorder := { rec0 with check_failed := true }

def recSeed : Recorder := { rec0 with audio_pts_us := 0 }

def recNeg : Recorder := { rec0 with pts := some (-1) }

def recNegHigh : Recorder := { rec0 with pts := some (-1), audio_pts_us := 5000 }

def backendW : Backend := .webm ⟨c2prev, true, true, true, 0, 10005000, true⟩

end Record

namespace Record

/-! ### Helper lemmas -/

theorem string_sandwich_inj {A B n1 n2 : String}
    (h : (A ++ n1) ++ B = (A ++ n2) ++ B) : n1 = n2 := by
  have hd : ((A ++ n1) ++ B).data = ((A ++ n2) ++ B).data := by rw [h]
  simp only [String.data_append] at hd
  have h1 := List.append_cancel_left (List.append_cancel_right hd)
  cases n1; cases n2; simp_all

theorem mk_filename_sandwich (ctx : RecorderContext) (now : String) (fmt : CodecFormat) :
    mk_filename ctx now fmt =
      (((ctx.dir ++ "/") ++ ((if ctx.server then "incoming" else "outgoing") ++ "_" ++ ctx.id))
        ++ now)
      ++ ((if ctx.camera then "camera" else "display") ++ toString ctx.display_idx ++ "_"
          ++ fmt.lowerString
          ++ (if fmt = .VP9 ∨ fmt = .VP8 ∨ fmt = .AV1 then ".webm" else ".mp4")) := by
  simp [mk_filename, make_file, String.append_assoc]

theorem mk_filename_ne (ctx : RecorderContext) {n1 n2 : String} (fmt : CodecFormat)
    (h : n1 ≠ n2) : mk_filename ctx n1 fmt ≠ mk_filename ctx n2 fmt := by
  intro he
  rw [mk_filename_sandwich, mk_filename_sandwich] at he
  exact h (string_sandwich_inj he)

theorem ceil_div_mul_ge (behind inc : Nat) (hinc : 0 < inc) :
    behind ≤ (behind + inc - 1) / inc * inc := by
  have h := (Nat.div_lt_iff_lt_mul hinc).mp
    (Nat.lt_add_one ((behind + inc - 1) / inc))
  have hm : ((behind + inc - 1) / inc + 1) * inc = (behind + inc - 1) / inc * inc + inc := by
    ring
  omega

theorem ceil_div_minimal (behind inc j : Nat) (hinc : 0 < inc) (hj : behind ≤ j * inc) :
    (behind + inc - 1) / inc ≤ j := by
  have hlt : behind + inc - 1 < (j + 1) * inc := by
    have : (j + 1) * inc = j * inc + inc := by ring
    omega
  have := (Nat.div_lt_iff_lt_mul hinc).mpr hlt
  omega

theorem ceil_div_mul_le (behind inc : Nat) :
    (behind + inc - 1) / inc * inc ≤ behind + inc - 1 :=
  Nat.div_mul_le_self _ _

/-- Below the wrap point the u64 numerator `behind + inc - 1` agrees
with its unbounded value. -/
theorem wrap_add_sub_one (a b : Nat) (h1 : 1 ≤ a + b) (h2 : a + b - 1 < 2 ^ 64) :
    wrapSub64 (wrapAdd64 a b) 1 = a + b - 1 := by
  unfold wrapSub64 wrapAdd64
  omega

/-- At the fixed 48 kHz sample rate the packet-duration estimate used by
`write_audio_opus` is always positive (at least one sample per frame
survives, so the duration is at least 2.5 ms; the fallback is 20 ms). -/
theorem opus_inc_pos (data : List Nat) :
    0 < (opus_packet_duration_us data 48000).getD 20000 := by
  unfold opus_packet_duration_us
  cases data with
  | nil => simp
  | cons toc rest =>
    cases hn : opus_nb_frames (toc :: rest) with
    | none => simp [hn]
    | some nbf =>
      by_cases hs : satMul64 (opus_samples_per_frame toc 48000) nbf = 0
      · simp [hn, hs]
      · have h1 : 1 ≤ satMul64 (opus_samples_per_frame toc 48000) nbf :=
          Nat.one_le_iff_ne_zero.mpr hs
        have h2 : 1000000 ≤
            satMul64 (satMul64 (opus_samples_per_frame toc 48000) nbf) 1000000 := by
          unfold satMul64 U64_MAX
          refine le_min ?_ (by norm_num)
          calc (1000000 : Nat) = 1 * 1000000 := by ring
            _ ≤ _ := Nat.mul_le_mul_right 1000000 h1
        have h3 : 0 <
            satMul64 (satMul64 (opus_samples_per_frame toc 48000) nbf) 1000000 / 48000 :=
          Nat.div_pos (le_trans (by norm_num) h2) (by norm_num)
        simp only [hn, hs, if_neg, ite_false]
        simpa [hs] using h3

/-- At 48 kHz the packet-duration estimate fits in u64. -/
theorem opus_inc_le (data : List Nat) :
    (opus_packet_duration_us data 48000).getD 20000 ≤ 2 ^ 64 - 1 := by
  unfold opus_packet_duration_us
  cases data with
  | nil => simp
  | cons toc rest =>
    cases hn : opus_nb_frames (toc :: rest) with
    | none => simp [hn]
    | some nbf =>
      by_cases hs : satMul64 (opus_samples_per_frame toc 48000) nbf = 0
      · simp [hn, hs]
      · have hd : satMul64 (satMul64 (opus_samples_per_frame toc 48000) nbf) 1000000 / 48000
            ≤ 2 ^ 64 - 1 := by
          have h1 : satMul64 (satMul64 (opus_samples_per_frame toc 48000) nbf) 1000000
              ≤ 2 ^ 64 - 1 := min_le_right _ _
          exact le_trans (Nat.div_le_self _ _) h1
        simp only [hn, hs, if_neg, ite_false]
        simpa [hs] using hd

end Record

namespace Record

/-- Source `check_inner` never touches the latched failure flag. -/
theorem check_inner_check_failed (r : Recorder) (e : CheckEnv) :
    ((r.check_inner e).1).check_failed = r.check_failed := by
  cases h1 : r.ctx2 with
  | none => simp [Recorder.check_inner, h1]
  | some c2 =>
    cases h2 : r.inner with
    | some b => simp [Recorder.check_inner, h1, h2]
    | none =>
      cases h3 : new_backend e.backend c2 with
      | error msg => simp [Recorder.check_inner, h1, h2, h3]
      | ok b => simp [Recorder.check_inner, h1, h2, h3]

/-- Source `check` never touches the latched failure flag. -/
theorem check_check_failed (r : Recorder) (e : CheckEnv) (w h : Nat)
    (fmt : CodecFormat) : ((r.check e w h fmt).1).check_failed = r.check_failed := by
  unfold Recorder.check
  cases h1 : r.ctx2 with
  | none =>
    cases h2 : RecorderContext2.set_filename
        { filename := "", width := w, height := h, format := fmt } e r.ctx with
    | error msg => rfl
    | ok c2' => exact check_inner_check_failed _ e
  | some c2 =>
    by_cases hm : c2.width ≠ w ∨ c2.height ≠ h ∨ c2.format ≠ fmt
    · simp only [hm, if_true]
      cases h2 : RecorderContext2.set_filename
          { filename := "", width := w, height := h, format := fmt } e r.ctx with
      | error msg => rfl
      | ok c2' => exact check_inner_check_failed _ e
    · simp only [hm, if_false]
      exact check_inner_check_failed r e

/-- With a cooperating environment every backend construction succeeds,
whatever the codec format. -/
theorem new_backend_ok (e : BackendEnv) (c2 : RecorderContext2)
    (hf : e.file_ok = true) (hm : e.mux_ok = true) (hcp : e.codec_private_ok = true) :
    ∃ b, new_backend e c2 = .ok b := by
  unfold new_backend WebmRecorder.mk_new HwRecorder.mk_new
  cases hfmt : c2.format <;> simp [hf, hm, hcp, Except.map]

/-- Source `check` on a recorder with no segment descriptor and a cooperating
environment: a fresh segment is opened with the incoming geometry and
format, the pts baseline and audio cursor are reset, and a single
`NewFile` notification is emitted. -/
theorem check_fresh_ok (r : Recorder) (e : CheckEnv) (w h : Nat) (fmt : CodecFormat)
    (hctx2 : r.ctx2 = none)
    (hdir : e.create_dir_ok = true) (hf : e.backend.file_ok = true)
    (hm : e.backend.mux_ok = true) (hcp : e.backend.codec_private_ok = true) :
    ∃ b, r.check e w h fmt =
      ({ r with ctx2 := some ⟨mk_filename r.ctx e.now fmt, w, h, fmt⟩,
                inner := some b, pts := none, audio_pts_us := 0 },
       .ok (), [RecordState.NewFile (mk_filename r.ctx e.now fmt)]) := by
  obtain ⟨b, hb⟩ := new_backend_ok e.backend ⟨mk_filename r.ctx e.now fmt, w, h, fmt⟩ hf hm hcp
  refine ⟨b, ?_⟩
  unfold Recorder.check RecorderContext2.set_filename
  simp only [hctx2, hdir, if_true]
  unfold Recorder.check_inner
  simp only [hb]

end Record

namespace Record

/-- Full behaviour of `write_audio_opus` once all three guards pass:
the seeded cursor `c0`, packet duration `inc`, video timeline
`video_us` and fast-forwarded write position `p` are as computed in the
source, the backend is called exactly once at `p`, and the cursor
advances per the success / bounded-failure policy. -/
theorem write_audio_opus_spec (r : Recorder) (data : List Nat) (afok : Bool)
    (v : Int) (b : Backend) (c0 inc video_us p : Nat) (b' : Backend) (wrote : Bool)
    (hcf : r.check_failed = false) (hpts : r.pts = some v) (hinner : r.inner = some b)
    (hc0 : c0 = if r.audio_pts_us = 0 ∧ v > 0
      then satMul64 (i64_to_u64 v) 1000 else r.audio_pts_us)
    (hinc : inc = (opus_packet_duration_us data r.audio_sample_rate).getD 20000)
    (hv : video_us = satMul64 (i64_to_u64 v) 1000)
    (hp : p = audio_ff c0 video_us inc)
    (hw : Backend.write_audio b data p afok = (b', wrote)) :
    r.write_audio_opus data afok =
      if wrote then
        ({ r with inner := some b', audio_pts_us := satAdd64 p inc }, [(data, p)],
         [RecordState.NewFrame])
      else if satAdd64 p inc ≤ video_us then
        ({ r with inner := some b', audio_pts_us := satAdd64 p inc }, [(data, p)], [])
      else
        ({ r with inner := some b', audio_pts_us := p }, [(data, p)], []) := by
  subst hc0 hinc hv hp
  unfold Recorder.write_audio_opus
  simp only [hcf, Bool.false_eq_true, if_false, hpts, hinner]
  rw [hw]

end Record

namespace Record

/-! ### Claims -/

/-- C4: for every Recorder state with no accepted video pts baseline or
no backend, `write_audio_opus` is a no-op that never errors: no backend
`write_audio` call is made, no notification is sent, and the whole
Recorder state (audio cursor, pts, backend) is unchanged. -/
theorem c4_audio_noop_before_key (r : Recorder) (data : List Nat) (afok : Bool)
    (h : r.pts = none ∨ r.inner = none) :
    r.write_audio_opus data afok = (r, [], []) := by
  unfold Recorder.write_audio_opus
  by_cases hc : r.check_failed = true
  · simp [hc]
  · rcases h with h | h
    · simp [hc, h]
    · cases hp : r.pts with
      | none => simp [hc, hp]
      | some v => simp [hc, hp, h]

theorem c4_witness :
    ((Recorder.mk_new ctx0).pts = none ∨ (Recorder.mk_new ctx0).inner = none) ∧
    (Recorder.mk_new ctx0).write_audio_opus [0] true = (Recorder.mk_new ctx0, [], []) :=
  ⟨Or.inl rfl, c4_audio_noop_before_key _ [0] true (Or.inl rfl)⟩

/-- C7: on backend teardown, if no write ever succeeded or less than
`MIN_SECS` (1 s) of wall-clock time elapsed since construction, the
output file is deleted and `RemoveFile` is sent; otherwise the file is
finalized and `WriteTail` is sent — for both the webm and the hardware
backend.  In particular a segment with at least one successful write
but under one second is deleted, not kept. -/
theorem c7_drop_min_duration (w : WebmRecorder) (hwr : HwRecorder) (el : Nat) :
    ((w.written = false ∨ el < 1) → w.drop_run el = (true, .RemoveFile)) ∧
    (w.written = true → 1 ≤ el → w.drop_run el = (false, .WriteTail)) ∧
    ((hwr.written = false ∨ el < 1) → hwr.drop_run el = (true, .RemoveFile)) ∧
    (hwr.written = true → 1 ≤ el → hwr.drop_run el = (false, .WriteTail)) := by
  unfold WebmRecorder.drop_run HwRecorder.drop_run MIN_SECS
  refine ⟨fun h => if_pos h, fun h1 h2 => ?_, fun h => if_pos h, fun h1 h2 => ?_⟩ <;>
  · rw [if_neg]
    push_neg
    exact ⟨by simp [h1], h2⟩

theorem c7_drop_witness :
    (webm0.written = false ∨ (0 : Nat) < 1) ∧
    webm0.drop_run 0 = (true, .RemoveFile) :=
  ⟨Or.inr (by decide), (c7_drop_min_duration webm0 hw0 0).1 (Or.inr (by decide))⟩

/-- C8 as stated is false on the code: a packet with control byte 0xFC
and a following byte 2 has frame-count code 0 (bottom two TOC bits are
00), hence one frame of 120 samples: 2,500 µs, not 5,000 µs. -/
theorem c8_counterexample :
    opus_packet_duration_us [0xFC, 2] 48000 = some 2500 ∧
    ¬ opus_packet_duration_us [0xFC, 2] 48000 = some 5000 := by decide

/-- C8 amended: the one-byte packet 0x00 at 48,000 Hz yields 240
samples → 5,000 µs; the top-class control byte with an explicit frame
count is 0xFF (frame-count code 3), and with count byte 2 it yields 120
samples/frame × 2 frames → 5,000 µs, while 0xFC with a trailing byte 2
is a single-frame packet yielding 2,500 µs. -/
theorem c8_amended_durations :
    opus_packet_duration_us [0x00] 48000 = some 5000 ∧
    opus_packet_duration_us [0xFF, 2] 48000 = some 5000 ∧
    opus_packet_duration_us [0xFC, 2] 48000 = some 2500 := by decide

/-- C9 as stated is false on the code: besides the empty packet and the
zero sample rate, the estimator also returns unknown for the non-empty
packet [0x03] at the nonzero rate 48,000 Hz (frame-count code 3 with no
count byte). -/
theorem c9_counterexample :
    ([0x03] : List Nat) ≠ [] ∧ (48000 : Nat) ≠ 0 ∧
    opus_packet_duration_us [0x03] 48000 = none := by decide

/-- C9 amended: the estimator returns unknown for an empty packet or a
zero sample rate, and additionally when a code-3 packet lacks its count
byte or when samples-per-frame × frame-count is zero; otherwise it
returns samples-per-frame × frame-count × 1,000,000 / sample-rate, and
an explicit frame count read from the second byte's low 6 bits is
clamped to a minimum of 1. -/
theorem c9_amended_characterization :
    (∀ (p : List Nat) (fs : Nat), p = [] ∨ fs = 0 →
      opus_packet_duration_us p fs = none) ∧
    (∀ (toc : Nat) (rest : List Nat) (fs : Nat), fs ≠ 0 →
      opus_nb_frames (toc :: rest) = none →
      opus_packet_duration_us (toc :: rest) fs = none) ∧
    (∀ (toc : Nat) (rest : List Nat) (fs n : Nat), fs ≠ 0 →
      opus_nb_frames (toc :: rest) = some n →
      opus_samples_per_frame toc fs * n = 0 →
      opus_packet_duration_us (toc :: rest) fs = none) ∧
    (∀ (toc : Nat) (rest : List Nat) (fs n : Nat), fs ≠ 0 →
      opus_nb_frames (toc :: rest) = some n →
      opus_samples_per_frame toc fs * n ≠ 0 →
      opus_samples_per_frame toc fs * n * 1000000 < 2 ^ 64 →
      opus_packet_duration_us (toc :: rest) fs =
        some (opus_samples_per_frame toc fs * n * 1000000 / fs)) ∧
    (∀ (toc b : Nat) (rest : List Nat), toc &&& 0x03 = 3 →
      opus_nb_frames (toc :: b :: rest) = some (max (b &&& 0x3F) 1)) ∧
    (∀ (p : List Nat) (n : Nat), opus_nb_frames p = some n → 1 ≤ n) := by
  refine ⟨?_, ?_, ?_, ?_, ?_, ?_⟩
  · rintro p fs (rfl | rfl)
    · simp [opus_packet_duration_us]
    · cases p with
      | nil => simp [opus_packet_duration_us]
      | cons toc rest => simp [opus_packet_duration_us]
  · intro toc rest fs hfs hnb
    simp [opus_packet_duration_us, hfs, hnb]
  · intro toc rest fs n hfs hnb hzero
    have hs : satMul64 (opus_samples_per_frame toc fs) n = 0 := by
      unfold satMul64
      simp [hzero]
    simp [opus_packet_duration_us, hfs, hnb, hs]
  · intro toc rest fs n hfs hnb hnz hlt
    have hle : opus_samples_per_frame toc fs * n ≤
        opus_samples_per_frame toc fs * n * 1000000 :=
      Nat.le_mul_of_pos_right _ (by norm_num)
    have hs1 : satMul64 (opus_samples_per_frame toc fs) n =
        opus_samples_per_frame toc fs * n := by
      unfold satMul64 U64_MAX
      exact min_eq_left (by omega)
    have hs2 : satMul64 (opus_samples_per_frame toc fs * n) 1000000 =
        opus_samples_per_frame toc fs * n * 1000000 := by
      unfold satMul64 U64_MAX
      exact min_eq_left (by omega)
    simp [opus_packet_duration_us, hfs, hnb, hs1, hs2, hnz]
  · intro toc b rest h
    simp [opus_nb_frames, h]
  · intro p n h
    cases p with
    | nil => simp [opus_nb_frames] at h
    | cons toc rest =>
      unfold opus_nb_frames at h
      by_cases h0 : toc &&& 0x03 = 0
      · simp [h0] at h
        omega
      · by_cases h3 : toc &&& 0x03 = 3
        · cases rest with
          | nil => simp [h0, h3] at h
          | cons b rest' =>
            simp [h0, h3] at h
            have := Nat.le_max_right (b &&& 0x3F) 1
            omega
        · simp [h0, h3] at h
          omega

theorem c9_amended_witness :
    ((48000 : Nat) ≠ 0 ∧ opus_nb_frames [0xFF, 0] = some 1 ∧
      opus_samples_per_frame 0xFF 48000 * 1 ≠ 0 ∧
      opus_samples_per_frame 0xFF 48000 * 1 * 1000000 < 2 ^ 64) ∧
    opus_packet_duration_us [0xFF, 0] 48000 =
      some (opus_samples_per_frame 0xFF 48000 * 1 * 1000000 / 48000) :=
  ⟨⟨by decide, by decide, by decide, by decide⟩,
   c9_amended_characterization.2.2.2.1 0xFF [0] 48000 1 (by decide) (by decide)
     (by decide) (by decide)⟩

end Record

namespace Record

/-- C1: for every Recorder state with an accepted pts baseline, a frame
whose pts is strictly below it makes `check_pts` rotate to exactly one
new segment with the same width, height and codec format, whose
filename (with a fresh timestamp) differs from the previous segment's,
set the new pts as the fresh baseline, and return Ok. -/
theorem c1_pts_decrease_rotates (r : Recorder) (e : CheckEnv) (p0 newPts : Int)
    (key : Bool) (w h : Nat) (fmt : CodecFormat) (oldNow : String)
    (hpts : r.pts = some p0) (hlt : newPts < p0)
    (hctx2 : r.ctx2 = some ⟨mk_filename r.ctx oldNow fmt, w, h, fmt⟩)
    (hnow : e.now ≠ oldNow)
    (hdir : e.create_dir_ok = true) (hf : e.backend.file_ok = true)
    (hm : e.backend.mux_ok = true) (hcp : e.backend.codec_private_ok = true) :
    ∃ b, r.check_pts e newPts key w h fmt =
      ({ r with ctx2 := some ⟨mk_filename r.ctx e.now fmt, w, h, fmt⟩,
                inner := some b, pts := some newPts, audio_pts_us := 0 },
       .ok (), [RecordState.NewFile (mk_filename r.ctx e.now fmt)]) ∧
      mk_filename r.ctx e.now fmt ≠ mk_filename r.ctx oldNow fmt := by
  obtain ⟨b, hb⟩ := check_fresh_ok
    { r with pts := some newPts, inner := none, ctx2 := none } e w h fmt rfl hdir hf hm hcp
  refine ⟨b, ?_, mk_filename_ne r.ctx fmt hnow⟩
  unfold Recorder.check_pts
  rw [if_neg (by simp [hpts])]
  rw [hpts]
  rw [if_pos (by simpa using hlt)]
  dsimp only
  rw [hb]

/-- C2: for every Recorder state with no pts baseline set, `check_pts`
fails with the non-key-first-frame error when the frame's keyframe flag
is false, and (with a cooperating environment) succeeds, accepting the
frame's pts as the baseline, when the flag is true. -/
theorem c2_first_frame_key (r : Recorder) (e : CheckEnv) (pts : Int) (w h : Nat)
    (fmt : CodecFormat) (hpts : r.pts = none)
    (hdir : e.create_dir_ok = true) (hf : e.backend.file_ok = true)
    (hm : e.backend.mux_ok = true) (hcp : e.backend.codec_private_ok = true) :
    r.check_pts e pts false w h fmt =
      (r, .error "first frame is not key frame", []) ∧
    ((r.check_pts e pts true w h fmt).2.1 = .ok () ∧
      ((r.check_pts e pts true w h fmt).1).pts = some pts) := by
  constructor
  · unfold Recorder.check_pts
    rw [if_pos ⟨hpts, rfl⟩]
  · unfold Recorder.check_pts
    rw [if_neg (by simp)]
    rw [hpts]
    by_cases hneg : (0 : Int) > pts
    · rw [if_pos (by simpa using hneg)]
      obtain ⟨b, hb⟩ := check_fresh_ok
        { r with pts := some pts, inner := none, ctx2 := none } e w h fmt rfl hdir hf hm hcp
      dsimp only
      rw [hb]
      exact ⟨rfl, rfl⟩
    · rw [if_neg (by simpa using hneg)]
      exact ⟨rfl, rfl⟩

theorem c2_witness :
    (Recorder.mk_new ctx0).pts = none ∧
    Recorder.check_pts (Recorder.mk_new ctx0) env0 5 false 2 3 .VP9 =
      (Recorder.mk_new ctx0, .error "first frame is not key frame", []) ∧
    (Recorder.check_pts (Recorder.mk_new ctx0) env0 5 true 2 3 .VP9).2.1 = .ok () :=
  ⟨rfl,
   (c2_first_frame_key (Recorder.mk_new ctx0) env0 5 2 3 .VP9 rfl rfl rfl rfl rfl).1,
   ((c2_first_frame_key (Recorder.mk_new ctx0) env0 5 2 3 .VP9 rfl rfl rfl rfl rfl).2).1⟩

/-- C3: once the latched failure flag is set, every video submission
through `write_frame` returns an error with no state change, no backend
call and no notification; every audio submission through
`write_audio_opus` is a no-op; and `check_pts` (hence no operation)
ever clears the flag. -/
theorem c3_latched_failure (r : Recorder) (e : CheckEnv) (frame : VideoFrameUnion)
    (oks : List Bool) (w h : Nat) (data : List Nat) (afok : Bool)
    (hcf : r.check_failed = true) :
    r.write_frame e frame oks w h = (r, .error "check failed", []) ∧
    r.write_audio_opus data afok = (r, [], []) ∧
    (∀ (pts : Int) (key : Bool) (w' h' : Nat) (fmt : CodecFormat),
      ((r.check_pts e pts key w' h' fmt).1).check_failed = true) := by
  refine ⟨?_, ?_, ?_⟩
  · unfold Recorder.write_frame
    simp [hcf]
  · unfold Recorder.write_audio_opus
    simp [hcf]
  · intro pts key w' h' fmt
    unfold Recorder.check_pts
    by_cases h1 : r.pts = none ∧ key = false
    · rw [if_pos h1]
      exact hcf
    · rw [if_neg h1]
      by_cases h2 : r.pts.getD 0 > pts
      · rw [if_pos h2]
        dsimp only
        rcases hck : Recorder.check
            { r with pts := some pts, inner := none, ctx2 := none } e w' h' fmt
          with ⟨r3, res, evs⟩
        have h3 : r3.check_failed = true := by
          have hinv := check_check_failed
            { r with pts := some pts, inner := none, ctx2 := none } e w' h' fmt
          rw [hck] at hinv
          simpa [hcf] using hinv
        cases res with
        | error msg => simpa using h3
        | ok u => simpa using h3
      · rw [if_neg h2]
        exact hcf

theorem c3_witness :
    recFail.check_failed = true ∧
    recFail.write_frame env0 (.vp9s []) [] 2 3 = (recFail, .error "check failed", []) :=
  ⟨rfl, (c3_latched_failure recFail env0 (.vp9s []) [] 2 3 [0] true rfl).1⟩

theorem c1_witness :
    (rec0.pts = some 10 ∧ (-3 : Int) < 10 ∧ env0.now ≠ "_20260101000000000_") ∧
    (∃ b, Recorder.check_pts rec0 env0 (-3) true 2 3 .VP9 =
      ({ rec0 with ctx2 := some ⟨mk_filename rec0.ctx env0.now .VP9, 2, 3, .VP9⟩,
                   inner := some b, pts := some (-3), audio_pts_us := 0 },
       .ok (), [RecordState.NewFile (mk_filename rec0.ctx env0.now .VP9)]) ∧
      mk_filename rec0.ctx env0.now .VP9 ≠
        mk_filename rec0.ctx "_20260101000000000_" .VP9) :=
  ⟨⟨rfl, by decide, by decide⟩,
   c1_pts_decrease_rotates rec0 env0 10 (-3) true 2 3 .VP9 "_20260101000000000_"
     rfl (by decide) rfl (by decide) rfl rfl rfl rfl⟩

end Record

namespace Record

/-- Corollary of `write_audio_opus_spec`: on the backend path exactly
one backend call happens, at the fast-forwarded position `p`. -/
theorem write_audio_opus_calls (r : Recorder) (data : List Nat) (afok : Bool)
    (v : Int) (b : Backend) (c0 inc video_us p : Nat)
    (hcf : r.check_failed = false) (hpts : r.pts = some v) (hinner : r.inner = some b)
    (hc0 : c0 = if r.audio_pts_us = 0 ∧ v > 0
      then satMul64 (i64_to_u64 v) 1000 else r.audio_pts_us)
    (hinc : inc = (opus_packet_duration_us data r.audio_sample_rate).getD 20000)
    (hv : video_us = satMul64 (i64_to_u64 v) 1000)
    (hp : p = audio_ff c0 video_us inc) :
    (r.write_audio_opus data afok).2.1 = [(data, p)] := by
  rcases hw : Backend.write_audio b data p afok with ⟨b', wrote⟩
  rw [write_audio_opus_spec r data afok v b c0 inc video_us p b' wrote
    hcf hpts hinner hc0 hinc hv hp hw]
  cases wrote with
  | true => rfl
  | false => by_cases hle : satAdd64 p inc ≤ video_us <;> simp [hle]

/-- Corollary of `write_audio_opus_spec`: the final cursor is either
the fast-forwarded position `p` or `p` advanced by one packet. -/
theorem write_audio_opus_cursor (r : Recorder) (data : List Nat) (afok : Bool)
    (v : Int) (b : Backend) (c0 inc video_us p : Nat)
    (hcf : r.check_failed = false) (hpts : r.pts = some v) (hinner : r.inner = some b)
    (hc0 : c0 = if r.audio_pts_us = 0 ∧ v > 0
      then satMul64 (i64_to_u64 v) 1000 else r.audio_pts_us)
    (hinc : inc = (opus_packet_duration_us data r.audio_sample_rate).getD 20000)
    (hv : video_us = satMul64 (i64_to_u64 v) 1000)
    (hp : p = audio_ff c0 video_us inc) :
    ((r.write_audio_opus data afok).1).audio_pts_us = p ∨
    ((r.write_audio_opus data afok).1).audio_pts_us = satAdd64 p inc := by
  rcases hw : Backend.write_audio b data p afok with ⟨b', wrote⟩
  rw [write_audio_opus_spec r data afok v b c0 inc video_us p b' wrote
    hcf hpts hinner hc0 hinc hv hp hw]
  cases wrote with
  | true => exact Or.inr (by simp)
  | false =>
    by_cases hle : satAdd64 p inc ≤ video_us
    · exact Or.inr (by simp [hle])
    · exact Or.inl (by simp [hle])

/-- C6: for every audio submission that reaches the backend (guards
passed), if the backend write succeeds the audio cursor advances by
exactly the packet duration and `NewFrame` is emitted; if it fails the
cursor advances by the packet duration if and only if the advanced
cursor does not exceed the video timeline, and is otherwise
unchanged. -/
theorem c6_audio_advance_policy (r : Recorder) (data : List Nat) (afok : Bool)
    (v : Int) (b : Backend) (c0 inc video_us p : Nat) (b' : Backend) (wrote : Bool)
    (hcf : r.check_failed = false) (hpts : r.pts = some v) (hinner : r.inner = some b)
    (hc0 : c0 = if r.audio_pts_us = 0 ∧ v > 0
      then satMul64 (i64_to_u64 v) 1000 else r.audio_pts_us)
    (hinc : inc = (opus_packet_duration_us data r.audio_sample_rate).getD 20000)
    (hv : video_us = satMul64 (i64_to_u64 v) 1000)
    (hp : p = audio_ff c0 video_us inc)
    (hw : Backend.write_audio b data p afok = (b', wrote))
    (hns : p + inc < 2 ^ 64) :
    (r.write_audio_opus data afok).2.1 = [(data, p)] ∧
    (wrote = true →
      ((r.write_audio_opus data afok).1).audio_pts_us = p + inc ∧
      (r.write_audio_opus data afok).2.2 = [RecordState.NewFrame]) ∧
    (wrote = false →
      (r.write_audio_opus data afok).2.2 = [] ∧
      (p + inc ≤ video_us →
        ((r.write_audio_opus data afok).1).audio_pts_us = p + inc) ∧
      (video_us < p + inc →
        ((r.write_audio_opus data afok).1).audio_pts_us = p)) := by
  have hsat : satAdd64 p inc = p + inc := by
    unfold satAdd64 U64_MAX
    exact min_eq_left (by omega)
  rw [write_audio_opus_spec r data afok v b c0 inc video_us p b' wrote
    hcf hpts hinner hc0 hinc hv hp hw, hsat]
  cases wrote with
  | true => simp
  | false =>
    by_cases hle : p + inc ≤ video_us <;> simp [hle] <;> omega

theorem c6_witness :
    ((10005 : Nat) + 5000 < 2 ^ 64) ∧
    ((rec0.write_audio_opus [0x00] true).2.1 = [([0x00], 10005)] ∧
     (true = true →
       ((rec0.write_audio_opus [0x00] true).1).audio_pts_us = 10005 + 5000 ∧
       (rec0.write_audio_opus [0x00] true).2.2 = [RecordState.NewFrame]) ∧
     (true = false →
       (rec0.write_audio_opus [0x00] true).2.2 = [] ∧
       (10005 + 5000 ≤ 10000 →
         ((rec0.write_audio_opus [0x00] true).1).audio_pts_us = 10005 + 5000) ∧
       (10000 < 10005 + 5000 →
         ((rec0.write_audio_opus [0x00] true).1).audio_pts_us = 10005))) :=
  ⟨by decide,
   c6_audio_advance_policy rec0 [0x00] true 10 backend0 5 5000 10000 10005
     backendW true rfl rfl rfl (by decide) (by decide) (by decide) (by decide)
     (by decide) (by decide)⟩

end Record

namespace Record

/-- C5: on the first audio packet per segment the cursor is seeded from
the current video pts converted from milliseconds to microseconds (so
the write is attempted there), and whenever the cursor is strictly
below the video timeline the write is attempted at the smallest value
cursor + k·duration (k ≥ 1) at or beyond the video timeline, which the
cursor is set to (before the write-outcome advance). -/
theorem c5_audio_seed_and_fast_forward :
    (∀ (r : Recorder) (data : List Nat) (afok : Bool) (v : Int) (b : Backend),
      r.check_failed = false → r.pts = some v → r.inner = some b →
      r.audio_pts_us = 0 → 0 < v → v.toNat * 1000 < 2 ^ 64 →
      (r.write_audio_opus data afok).2.1 = [(data, v.toNat * 1000)]) ∧
    (∀ (r : Recorder) (data : List Nat) (afok : Bool) (v : Int) (b : Backend)
        (inc video_us : Nat),
      r.check_failed = false → r.pts = some v → r.inner = some b →
      r.audio_sample_rate = 48000 →
      inc = (opus_packet_duration_us data r.audio_sample_rate).getD 20000 →
      video_us = satMul64 (i64_to_u64 v) 1000 →
      r.audio_pts_us ≠ 0 → r.audio_pts_us < video_us →
      video_us + inc ≤ 2 ^ 64 →
      ∃ p, (r.write_audio_opus data afok).2.1 = [(data, p)] ∧
        video_us ≤ p ∧
        (∃ k, 1 ≤ k ∧ p = r.audio_pts_us + k * inc) ∧
        (∀ j, 1 ≤ j → video_us ≤ r.audio_pts_us + j * inc →
          p ≤ r.audio_pts_us + j * inc) ∧
        (((r.write_audio_opus data afok).1).audio_pts_us = p ∨
         ((r.write_audio_opus data afok).1).audio_pts_us = satAdd64 p inc)) := by
  constructor
  · intro r data afok v b hcf hpts hinner haud hv0 hlt
    have hto : i64_to_u64 v = v.toNat := by
      unfold i64_to_u64
      omega
    have hsm : satMul64 v.toNat 1000 = v.toNat * 1000 := by
      unfold satMul64 U64_MAX
      exact min_eq_left (by omega)
    exact write_audio_opus_calls r data afok v b (v.toNat * 1000)
      ((opus_packet_duration_us data r.audio_sample_rate).getD 20000)
      (v.toNat * 1000) (v.toNat * 1000) hcf hpts hinner
      (by rw [if_pos ⟨haud, hv0⟩, hto, hsm]) rfl (by rw [hto, hsm])
      (by unfold audio_ff; rw [if_neg (lt_irrefl _)])
  · intro r data afok v b inc video_us hcf hpts hinner hsr hinc hv hne hlag hbound
    have hinc0 : 0 < inc := by
      rw [hinc, hsr]
      exact opus_inc_pos data
    have hge := ceil_div_mul_ge (video_us - r.audio_pts_us) inc hinc0
    have hlee := ceil_div_mul_le (video_us - r.audio_pts_us) inc
    have hsm : satMul64 ((video_us - r.audio_pts_us + inc - 1) / inc) inc =
        (video_us - r.audio_pts_us + inc - 1) / inc * inc := by
      unfold satMul64 U64_MAX
      exact min_eq_left (by omega)
    have hsa : satAdd64 r.audio_pts_us
          ((video_us - r.audio_pts_us + inc - 1) / inc * inc) =
        r.audio_pts_us + (video_us - r.audio_pts_us + inc - 1) / inc * inc := by
      unfold satAdd64 U64_MAX
      exact min_eq_left (by omega)
    have hc0eq : r.audio_pts_us =
        if r.audio_pts_us = 0 ∧ v > 0 then satMul64 (i64_to_u64 v) 1000
        else r.audio_pts_us := by
      rw [if_neg (fun hcon => hne hcon.1)]
    have hpeq : r.audio_pts_us + (video_us - r.audio_pts_us + inc - 1) / inc * inc =
        audio_ff r.audio_pts_us video_us inc := by
      unfold audio_ff
      rw [if_pos hlag]
      dsimp only
      rw [wrap_add_sub_one (video_us - r.audio_pts_us) inc (by omega) (by omega),
        hsm, hsa]
    refine ⟨r.audio_pts_us + (video_us - r.audio_pts_us + inc - 1) / inc * inc,
      write_audio_opus_calls r data afok v b r.audio_pts_us inc video_us _
        hcf hpts hinner hc0eq hinc hv hpeq,
      by omega,
      ⟨(video_us - r.audio_pts_us + inc - 1) / inc,
        (Nat.one_le_div_iff hinc0).mpr (by omega), rfl⟩,
      ?_,
      write_audio_opus_cursor r data afok v b r.audio_pts_us inc video_us _
        hcf hpts hinner hc0eq hinc hv hpeq⟩
    intro j hj1 hj2
    have hjm := ceil_div_minimal (video_us - r.audio_pts_us) inc j hinc0 (by omega)
    have := Nat.mul_le_mul_right inc hjm
    omega

theorem c5_witness :
    (recSeed.audio_pts_us = 0 ∧ (0 : Int) < 10 ∧ (10 : Int).toNat * 1000 < 2 ^ 64 ∧
      (recSeed.write_audio_opus [0x00] true).2.1 = [([0x00], (10 : Int).toNat * 1000)]) ∧
    (rec0.audio_pts_us ≠ 0 ∧ rec0.audio_pts_us < satMul64 (i64_to_u64 10) 1000 ∧
      ∃ p, (rec0.write_audio_opus [0x00] true).2.1 = [([0x00], p)] ∧
        satMul64 (i64_to_u64 10) 1000 ≤ p ∧
        (∃ k, 1 ≤ k ∧ p = rec0.audio_pts_us +
          k * ((opus_packet_duration_us [0x00] rec0.audio_sample_rate).getD 20000)) ∧
        (∀ j, 1 ≤ j → satMul64 (i64_to_u64 10) 1000 ≤ rec0.audio_pts_us +
            j * ((opus_packet_duration_us [0x00] rec0.audio_sample_rate).getD 20000) →
          p ≤ rec0.audio_pts_us +
            j * ((opus_packet_duration_us [0x00] rec0.audio_sample_rate).getD 20000)) ∧
        (((rec0.write_audio_opus [0x00] true).1).audio_pts_us = p ∨
         ((rec0.write_audio_opus [0x00] true).1).audio_pts_us =
           satAdd64 p ((opus_packet_duration_us [0x00] rec0.audio_sample_rate).getD 20000))) :=
  ⟨⟨rfl, by decide, by decide,
     c5_audio_seed_and_fast_forward.1 recSeed [0x00] true 10 backend0
       rfl rfl rfl rfl (by decide) (by decide)⟩,
   by decide, by decide,
   c5_audio_seed_and_fast_forward.2 rec0 [0x00] true 10 backend0
     ((opus_packet_duration_us [0x00] rec0.audio_sample_rate).getD 20000)
     (satMul64 (i64_to_u64 10) 1000)
     rfl rfl rfl rfl rfl rfl (by decide) (by decide) (by decide)⟩

/-- C10 as stated is false on the code: because the fast-forward step
count's numerator `behind + inc_us - 1` is computed in wrapping u64
arithmetic, a cursor below duration − 1 (here 5 < 4,999 with a 5,000 µs
packet against the 2^64 − 1 timeline) wraps the numerator below the
duration, steps become 0, and the write is attempted at the old small
cursor — not fast-forwarded to at least 2^64 − 1. -/
theorem c10_counterexample :
    satMul64 (i64_to_u64 (-1)) 1000 = 2 ^ 64 - 1 ∧
    (recNeg.write_audio_opus [0x00] true).2.1 = [([0x00], 5)] ∧
    ((recNeg.write_audio_opus [0x00] true).1).audio_pts_us = 5005 ∧
    ¬ 2 ^ 64 - 1 ≤ ((recNeg.write_audio_opus [0x00] true).1).audio_pts_us := by
  decide

/-- C10 amended: for a Recorder whose last accepted video pts is
negative, the video timeline is computed by casting the signed pts to
u64 and saturating-multiplying by 1,000, which gives exactly 2^64 − 1
(near 2^64, not a small or zero time).  The fast-forward then splits on
the wrapping u64 numerator: when the audio cursor is at least
duration − 1, the cursor is fast-forwarded to 2^64 − 1 and the write is
attempted there; when the cursor is below duration − 1 the step count
wraps to zero and the write is attempted at the unchanged small
cursor. -/
theorem c10_negative_pts_saturates (r : Recorder) (data : List Nat) (afok : Bool)
    (v : Int) (b : Backend) (inc : Nat)
    (hcf : r.check_failed = false) (hpts : r.pts = some v) (hinner : r.inner = some b)
    (hneg : v < 0) (hrange : -(2 ^ 63) ≤ v)
    (hinc : inc = (opus_packet_duration_us data r.audio_sample_rate).getD 20000)
    (hsr : r.audio_sample_rate = 48000) (hcur : r.audio_pts_us < 2 ^ 64) :
    satMul64 (i64_to_u64 v) 1000 = 2 ^ 64 - 1 ∧
    (inc - 1 ≤ r.audio_pts_us →
      (r.write_audio_opus data afok).2.1 = [(data, 2 ^ 64 - 1)] ∧
      ((r.write_audio_opus data afok).1).audio_pts_us = 2 ^ 64 - 1) ∧
    (r.audio_pts_us + 1 < inc →
      (r.write_audio_opus data afok).2.1 = [(data, r.audio_pts_us)]) := by
  have hbig : 2 ^ 63 ≤ i64_to_u64 v := by
    unfold i64_to_u64
    omega
  have hvid : satMul64 (i64_to_u64 v) 1000 = 2 ^ 64 - 1 := by
    have := Nat.mul_le_mul_right 1000 hbig
    unfold satMul64 U64_MAX
    exact min_eq_right (by omega)
  have hinc0 : 0 < inc := by
    rw [hinc, hsr]
    exact opus_inc_pos data
  have hincle : inc ≤ 2 ^ 64 - 1 := by
    rw [hinc, hsr]
    exact opus_inc_le data
  have hc0eq : r.audio_pts_us =
      if r.audio_pts_us = 0 ∧ v > 0 then satMul64 (i64_to_u64 v) 1000
      else r.audio_pts_us := by
    rw [if_neg (fun hcon => absurd hcon.2 (by omega))]
  refine ⟨hvid, fun hge => ?_, fun hlt2 => ?_⟩
  · have hpeq : audio_ff r.audio_pts_us (2 ^ 64 - 1) inc = 2 ^ 64 - 1 := by
      unfold audio_ff
      by_cases hlt : r.audio_pts_us < 2 ^ 64 - 1
      · rw [if_pos hlt]
        dsimp only
        rw [wrap_add_sub_one (2 ^ 64 - 1 - r.audio_pts_us) inc (by omega) (by omega)]
        have hgeC := ceil_div_mul_ge (2 ^ 64 - 1 - r.audio_pts_us) inc hinc0
        unfold satAdd64 satMul64 U64_MAX
        omega
      · rw [if_neg hlt]
        omega
    refine ⟨write_audio_opus_calls r data afok v b r.audio_pts_us inc
      (2 ^ 64 - 1) (2 ^ 64 - 1) hcf hpts hinner hc0eq hinc hvid.symm hpeq.symm, ?_⟩
    have hcas := write_audio_opus_cursor r data afok v b r.audio_pts_us inc
      (2 ^ 64 - 1) (2 ^ 64 - 1) hcf hpts hinner hc0eq hinc hvid.symm hpeq.symm
    rcases hcas with hres | hres
    · exact hres
    · rw [hres]
      unfold satAdd64 U64_MAX
      omega
  · have hcM : r.audio_pts_us < 2 ^ 64 - 1 := by omega
    have hpeq : audio_ff r.audio_pts_us (2 ^ 64 - 1) inc = r.audio_pts_us := by
      unfold audio_ff
      rw [if_pos hcM]
      dsimp only
      have hw : wrapSub64 (wrapAdd64 (2 ^ 64 - 1 - r.audio_pts_us) inc) 1 =
          inc - 2 - r.audio_pts_us := by
        unfold wrapSub64 wrapAdd64
        omega
      rw [hw, Nat.div_eq_of_lt (by omega)]
      unfold satMul64 satAdd64 U64_MAX
      omega
    exact write_audio_opus_calls r data afok v b r.audio_pts_us inc
      (2 ^ 64 - 1) r.audio_pts_us hcf hpts hinner hc0eq hinc hvid.symm hpeq.symm

theorem c10_witness :
    ((-1 : Int) < 0 ∧ -(2 ^ 63) ≤ (-1 : Int) ∧ recNegHigh.audio_pts_us < 2 ^ 64 ∧
      (opus_packet_duration_us [0x00] recNegHigh.audio_sample_rate).getD 20000 - 1
        ≤ recNegHigh.audio_pts_us) ∧
    (satMul64 (i64_to_u64 (-1)) 1000 = 2 ^ 64 - 1 ∧
     (recNegHigh.write_audio_opus [0x00] true).2.1 = [([0x00], 2 ^ 64 - 1)] ∧
     ((recNegHigh.write_audio_opus [0x00] true).1).audio_pts_us = 2 ^ 64 - 1) :=
  ⟨⟨by decide, by decide, by decide, by decide⟩,
   (c10_negative_pts_saturates recNegHigh [0x00] true (-1) backend0
      ((opus_packet_duration_us [0x00] recNegHigh.audio_sample_rate).getD 20000)
      rfl rfl rfl (by decide) (by decide) rfl rfl (by decide)).1,
   ((c10_negative_pts_saturates recNegHigh [0x00] true (-1) backend0
      ((opus_packet_duration_us [0x00] recNegHigh.audio_sample_rate).getD 20000)
      rfl rfl rfl (by decide) (by decide) rfl rfl (by decide)).2).1 (by decide)⟩

end Record
